import Mathlib

/-!
# Verification of the hazard-telemetry server (`src/main.py`)

The Python program fetches seismic (USGS) and cyclone (NOAA) data on a
schedule, normalizes each provider item into a record dictionary, stores the
latest record list per source in a global variable, and forwards the cyclone
snapshot record-by-record to a downstream model endpoint.

Shallow embedding conventions:
* Python/JSON values are modelled by the inductive `Json`; all numbers are
  collapsed into `Int` (no claim depends on int/float distinctions: the only
  non-integral literal in the source is the magnitude floor `3.0`).
* Fallible Python operations (`d[k]`, `d.get(k)`, `l[i]`, iteration, `in`,
  `.split`) are modelled as `Except PyErr _` functions mirroring the
  exceptions the corresponding Python operation raises.
* The global snapshot variables are modelled by explicit state passing: each
  fetch function maps (provider response, old snapshot) to the new snapshot.
* An outbound HTTP request is modelled by the `HttpCall` descriptor built
  from the arguments the source passes to `requests.get` / `requests.post`;
  `requests` waits indefinitely when no `timeout=` keyword is given, so an
  omitted keyword is modelled as `timeout = none`.
-/

/-- Python exception classes raised by the embedded fragments. -/
inductive PyErr where
  | keyError
  | indexError
  | typeError
  | attributeError
  | connectionError
  | valueError
  deriving DecidableEq

/-- JSON-like Python values (the payloads the program manipulates). -/
inductive Json where
  | null
  | bool (b : Bool)
  | num (n : Int)
  | str (s : String)
  | arr (xs : List Json)
  | obj (fields : List (String × Json))

/-- `true` exactly on the `Json.bool` constructor. -/
def isBoolJson : Json → Bool
  | .bool _ => true
  | _ => false

/-- Python truthiness of a JSON-like value (`bool(x)`). -/
def jTruthy : Json → Bool
  | .null => false
  | .bool b => b
  | .num n => n != 0
  | .str s => s != ""
  | .arr xs => !xs.isEmpty
  | .obj fs => !fs.isEmpty

/-- Key lookup in a JSON object, `none` if not an object or key absent. -/
def jLookup (o : Json) (k : String) : Option Json :=
  match o with
  | .obj fs => fs.lookup k
  | _ => none

/-- Python subscript `o[k]` with a string key: `KeyError` when the key is
absent from a dict, `TypeError` on any non-dict value. -/
def pySubscript (o : Json) (k : String) : Except PyErr Json :=
  match o with
  | .obj fs =>
    match fs.lookup k with
    | some v => .ok v
    | none => .error .keyError
  | _ => .error .typeError

/-- Python `o.get(k)` (default `None`): `AttributeError` on non-dicts. -/
def pyGet (o : Json) (k : String) : Except PyErr Json :=
  match o with
  | .obj fs => .ok ((fs.lookup k).getD .null)
  | _ => .error .attributeError

/-- Python `o.get(k, d)`: `AttributeError` on non-dicts. -/
def pyGetD (o : Json) (k : String) (d : Json) : Except PyErr Json :=
  match o with
  | .obj fs => .ok ((fs.lookup k).getD d)
  | _ => .error .attributeError

/-- Python subscript `o[i]` with a non-negative integer index:
`IndexError` past the end of a list or string, `TypeError` otherwise. -/
def pyIndex (o : Json) (i : Nat) : Except PyErr Json :=
  match o with
  | .arr xs =>
    match xs[i]? with
    | some v => .ok v
    | none => .error .indexError
  | .str s =>
    match s.toList[i]? with
    | some c => .ok (.str (String.mk [c]))
    | none => .error .indexError
  | _ => .error .typeError

/-- Python iteration `for x in o`: list elements, string characters, dict
keys; `TypeError` on non-iterables. -/
def pyIter : Json → Except PyErr (List Json)
  | .arr xs => .ok xs
  | .str s => .ok (s.toList.map (fun c => .str (String.mk [c])))
  | .obj fs => .ok (fs.map (fun p => .str p.1))
  | _ => .error .typeError

/-- `true` exactly on `Except.ok`. -/
def exceptOk {α : Type} : Except PyErr α → Bool
  | .ok _ => true
  | .error _ => false

/-- The separator `", "` used by `main.py` line 46-47 (`place.split(", ")`). -/
def commaSpace : List Char := [',', ' ']

/-- Python `", " in s` on a character list: some position starts with
`',', ' '`. -/
def hasCS : List Char → Bool
  | [] => false
  | [_] => false
  | c :: d :: t => (c == ',' && d == ' ') || hasCS (d :: t)

/-- Python `s.split(", ")` on a character list: cut at every (left-to-right,
non-overlapping) occurrence of `", "`, dropping the separators. -/
def splitCS : List Char → List (List Char)
  | [] => [[]]
  | [c] => [[c]]
  | c :: d :: t =>
    if c == ',' && d == ' ' then
      [] :: splitCS t
    else
      match splitCS (d :: t) with
      | [] => [[c]]
      | p :: ps => (c :: p) :: ps

/-- Python `", " in o` on a JSON-like value: substring test on strings,
membership on lists, key membership on dicts, `TypeError` otherwise. -/
def pyContainsCS (o : Json) : Except PyErr Bool :=
  match o with
  | .str s => .ok (hasCS s.toList)
  | .arr xs => .ok (xs.any fun j => match j with | .str s => s == ", " | _ => false)
  | .obj fs => .ok (fs.any fun p => p.1 == ", ")
  | _ => .error .typeError

/-- Region derivation of `main.py` lines 45-49 on a character list:
`place.split(", ")[-1]` when `", " in place`, else `place` itself.
(`[-1]` on the never-empty split result is `getLastD`.) -/
def regionChars (place : List Char) : List Char :=
  if hasCS place then (splitCS place).getLastD [] else place

/-- Region derivation of `main.py` lines 46-49 on the JSON-like `place`
value: the `in` test can `TypeError` on non-sequence values, and
`.split` is only an attribute of strings. -/
def regionOf (place : Json) : Except PyErr Json := do
  let b ← pyContainsCS place
  if b then
    match place with
    | .str s =>
      match (splitCS s.toList).getLast? with
      | some part => .ok (.str (String.mk part))
      | none => .error .indexError
    | _ => .error .attributeError
  else
    .ok place

/-- The normalized earthquake record built at `main.py` lines 52-92; the
nested `focal_mechanism` dict is flattened into the `strike`/`dip`/`rake`
fields. Every field holds the JSON-like value stored in the dict. -/
structure EqRecord where
  id : Json
  time : Json
  updated : Json
  magnitude : Json
  mag_type : Json
  magnitude_error : Json
  latitude : Json
  longitude : Json
  depth_km : Json
  depth_error : Json
  location : Json
  region : Json
  seismic_stations : Json
  rms : Json
  gap : Json
  dmin : Json
  strike : Json
  dip : Json
  rake : Json
  tsunami_alert : Json
  tsunami_warning : Json
  event_type : Json
  status : Json
  url : Json

/-- One iteration of the loop at `main.py` lines 40-94: extraction of a
single feature, in source evaluation order.  `geometry` holds
`feature["geometry"]["coordinates"]` exactly as the source variable does. -/
def normalizeFeature (feature : Json) : Except PyErr EqRecord := do
  let properties ← pySubscript feature "properties"
  let geometry ← pySubscript (← pySubscript feature "geometry") "coordinates"
  let place ← pyGetD properties "place" (Json.str "N/A")
  let region ← regionOf place
  let id_v ← pyGet feature "id"
  let time_v ← pyGet properties "time"
  let updated_v ← pyGet properties "updated"
  let mag_v ← pyGet properties "mag"
  let magType_v ← pyGet properties "magType"
  let magError_v ← pyGetD properties "magError" (Json.str "N/A")
  let lat_v ← pyIndex geometry 1
  let lon_v ← pyIndex geometry 0
  let depth_v ← pyIndex geometry 2
  let depthError_v ← pyGetD properties "depthError" (Json.str "N/A")
  let nst_v ← pyGetD properties "nst" (Json.str "N/A")
  let rms_v ← pyGetD properties "rms" (Json.str "N/A")
  let gap_v ← pyGetD properties "gap" (Json.str "N/A")
  let dmin_v ← pyGetD properties "dmin" (Json.str "N/A")
  let strike_v ← pyGetD properties "strike" (Json.str "N/A")
  let dip_v ← pyGetD properties "dip" (Json.str "N/A")
  let rake_v ← pyGetD properties "rake" (Json.str "N/A")
  let tsunami_v ← pyGet properties "tsunami"
  let alert_v ← pyGetD properties "alert" (Json.str "N/A")
  let type_v ← pyGet properties "type"
  let status_v ← pyGet properties "status"
  let url_v ← pyGet properties "url"
  pure {
    id := id_v
    time := time_v
    updated := updated_v
    magnitude := mag_v
    mag_type := magType_v
    magnitude_error := magError_v
    latitude := lat_v
    longitude := lon_v
    depth_km := depth_v
    depth_error := depthError_v
    location := place
    region := region
    seismic_stations := nst_v
    rms := rms_v
    gap := gap_v
    dmin := dmin_v
    strike := strike_v
    dip := dip_v
    rake := rake_v
    tsunami_alert := if jTruthy tsunami_v then Json.num 1 else Json.num 0
    tsunami_warning := alert_v
    event_type := type_v
    status := status_v
    url := url_v
  }

/-- The body of the `if response.status_code == 200` branch at
`main.py` lines 37-94: `data["features"]`, iterate, normalize each feature
in order (the first exception aborts the whole extraction). -/
def extract_earthquakes (data : Json) : Except PyErr (List EqRecord) := do
  let feats ← pySubscript data "features"
  let items ← pyIter feats
  items.mapM normalizeFeature

/-- An HTTP provider response: status code plus the result of
`response.json()` (which raises on an unparsable body). -/
structure HttpResp where
  status : Nat
  jsonBody : Except PyErr Json

/-- `fetch_earthquake_data` (`main.py` lines 19-101) as a state transition
on the global `latest_earthquake_data`.  `resp` is the outcome of
`requests.get` (`.error` = transport exception).  Any exception inside the
`try` block is caught at line 100 and leaves the global untouched; a
non-200 status only logs. -/
def fetch_earthquake_data (resp : Except PyErr HttpResp)
    (latest_earthquake_data : List EqRecord) : List EqRecord :=
  match resp with
  | .error _ => latest_earthquake_data
  | .ok r =>
    if r.status = 200 then
      match r.jsonBody >>= extract_earthquakes with
      | .ok extracted => extracted
      | .error _ => latest_earthquake_data
    else latest_earthquake_data

/-- The normalized cyclone record built at `main.py` lines 114-120. -/
structure CycRecord where
  ISO_TIME : Json
  LAT : Json
  LON : Json
  STORM_SPEED : Json
  STORM_DIR : Json

/-- One iteration of the loop at `main.py` lines 113-121. -/
def normalizeStorm (storm : Json) : Except PyErr CycRecord := do
  let iso ← pyGet storm "lastUpdate"
  let lat ← pyGet storm "latitude_numeric"
  let lon ← pyGet storm "longitude_numeric"
  let spd ← pyGet storm "movementSpeed"
  let dir ← pyGet storm "movementDir"
  pure { ISO_TIME := iso, LAT := lat, LON := lon, STORM_SPEED := spd, STORM_DIR := dir }

/-- Lines 110-121: `response.json().get("activeStorms", [])`, iterate,
normalize each storm in order. -/
def extract_cyclones (data : Json) : Except PyErr (List CycRecord) := do
  let storms ← pyGetD data "activeStorms" (Json.arr [])
  let items ← pyIter storms
  items.mapM normalizeStorm

/-- `fetch_cyclone_data` (`main.py` lines 103-128) as a state transition on
the global `latest_cyclone_data`; same error discipline as the
earthquake fetch. -/
def fetch_cyclone_data (resp : Except PyErr HttpResp)
    (latest_cyclone_data : List CycRecord) : List CycRecord :=
  match resp with
  | .error _ => latest_cyclone_data
  | .ok r =>
    if r.status = 200 then
      match r.jsonBody >>= extract_cyclones with
      | .ok extracted => extracted
      | .error _ => latest_cyclone_data
    else latest_cyclone_data

/-- Observable events of one `send_data_to_model` run: the early-exit log
when the snapshot is empty, or one `posted` event per loop iteration with
the outcome of `requests.post` (`.error` = exception, caught at line 140). -/
inductive DispatchEvent where
  | noData
  | posted (storm : CycRecord) (result : Except PyErr Nat)

/-- `send_data_to_model` (`main.py` lines 130-141): returns the event trace.
`post` is the outcome of `requests.post(MODEL_ENDPOINT, json=storm)`; the
per-record `try`/`except` swallows every exception, so the loop always
visits every record. -/
def send_data_to_model (latest_cyclone_data : List CycRecord)
    (post : CycRecord → Except PyErr Nat) : List DispatchEvent :=
  if latest_cyclone_data.isEmpty then [DispatchEvent.noData]
  else latest_cyclone_data.map (fun storm => .posted storm (post storm))

/-- The records actually sent (attempted) in an event trace, in order. -/
def postedRecords (events : List DispatchEvent) : List CycRecord :=
  events.filterMap (fun e =>
    match e with
    | .posted storm _ => some storm
    | .noData => none)

/-- The `/send_to_model` handler `trigger_model_send` (`main.py` lines
159-162): runs the dispatch and returns the fixed JSON body of line 162. -/
def trigger_model_send (latest_cyclone_data : List CycRecord)
    (post : CycRecord → Except PyErr Nat) : List DispatchEvent × Json :=
  (send_data_to_model latest_cyclone_data post,
   Json.obj [("message", Json.str "Cyclone data sent to model.")])

/-- `NOAA_URL` (`main.py` line 9). -/
def NOAA_URL : String := "https://api.weather.gov/products/types/TCM"

/-- `MODEL_ENDPOINT` (`main.py` line 10). -/
def MODEL_ENDPOINT : String := "https://your-model-api-url.com/predict_cluster"

/-- `USGS_URL` (`main.py` line 13). -/
def USGS_URL : String := "https://earthquake.usgs.gov/fdsnws/event/1/query"

/-- Descriptor of one outbound HTTP request as issued by `requests`:
`timeout = none` models an omitted `timeout=` keyword (wait forever). -/
structure HttpCall where
  method : String
  url : String
  params : List (String × Json)
  body : Option Json
  timeout : Option Nat

/-- The `params` dict of `main.py` lines 23-31, in insertion order.  The
two `datetime.now(UTC).strftime('%Y-%m-%d')` evaluations (lines 25 and 26)
are passed in as `d1` and `d2`. -/
def usgs_params (d1 d2 : String) : List (String × Json) :=
  [("format", Json.str "geojson"),
   ("starttime", Json.str d1),
   ("endtime", Json.str d2),
   ("minmagnitude", Json.num 3),
   ("orderby", Json.str "time-asc"),
   ("limit", Json.num 50),
   ("eventtype", Json.str "earthquake")]

/-- The single request of `main.py` line 34:
`requests.get(USGS_URL, params=params)` — no `timeout=` keyword. -/
def earthquake_request (d1 d2 : String) : HttpCall :=
  { method := "GET", url := USGS_URL, params := usgs_params d1 d2,
    body := none, timeout := none }

/-- The single request of `main.py` line 108: `requests.get(NOAA_URL)` —
no query parameters and no `timeout=` keyword. -/
def cyclone_request : HttpCall :=
  { method := "GET", url := NOAA_URL, params := [], body := none, timeout := none }

/-- The JSON body sent for one storm: the dict of `main.py` lines 114-120. -/
def cycToJson (r : CycRecord) : Json :=
  .obj [("ISO_TIME", r.ISO_TIME), ("LAT", r.LAT), ("LON", r.LON),
        ("STORM_SPEED", r.STORM_SPEED), ("STORM_DIR", r.STORM_DIR)]

/-- The per-record request of `main.py` line 138:
`requests.post(MODEL_ENDPOINT, json=storm)` — no `timeout=` keyword. -/
def model_request (storm : CycRecord) : HttpCall :=
  { method := "POST", url := MODEL_ENDPOINT, params := [],
    body := some (cycToJson storm), timeout := none }

/-- The seismic query parameters exactly as claim C8 enumerates them
(modelled from the spec's words, for comparison with `usgs_params`): start
and end date, minimum magnitude 3.0, ascending time order, cap 50,
event-type filter — and nothing else. -/
def specSeismicParams (d1 d2 : String) : List (String × Json) :=
  [("starttime", Json.str d1),
   ("endtime", Json.str d2),
   ("minmagnitude", Json.num 3),
   ("orderby", Json.str "time-asc"),
   ("limit", Json.num 50),
   ("eventtype", Json.str "earthquake")]

/-- A provider feature whose `properties` dict is empty: every optional
field is absent.  The geometry is well-formed. -/
def exAbsent : Json :=
  .obj [("properties", .obj []),
        ("geometry", .obj [("coordinates", .arr [.num 10, .num 20, .num 30])])]

/-- The record `exAbsent` normalizes to. -/
def exAbsentRec : EqRecord :=
  { id := .null, time := .null, updated := .null, magnitude := .null,
    mag_type := .null, magnitude_error := .str "N/A",
    latitude := .num 20, longitude := .num 10, depth_km := .num 30,
    depth_error := .str "N/A", location := .str "N/A", region := .str "N/A",
    seismic_stations := .str "N/A", rms := .str "N/A", gap := .str "N/A",
    dmin := .str "N/A", strike := .str "N/A", dip := .str "N/A",
    rake := .str "N/A", tsunami_alert := .num 0, tsunami_warning := .str "N/A",
    event_type := .null, status := .null, url := .null }

/-- A provider feature with a truthy `tsunami` field. -/
def exTsunami : Json :=
  .obj [("properties", .obj [("tsunami", .num 1)]),
        ("geometry", .obj [("coordinates", .arr [.num 10, .num 20, .num 30])])]

/-- A placeholder cyclone record for concrete instantiations. -/
def dummyCyc : CycRecord :=
  { ISO_TIME := .null, LAT := .null, LON := .null,
    STORM_SPEED := .null, STORM_DIR := .null }

/-- Three concrete storms; the second one makes the sink fail. -/
def cycA : CycRecord :=
  { ISO_TIME := .null, LAT := .num 1, LON := .null,
    STORM_SPEED := .null, STORM_DIR := .null }

def cycB : CycRecord :=
  { ISO_TIME := .null, LAT := .num 2, LON := .null,
    STORM_SPEED := .null, STORM_DIR := .null }

def cycC : CycRecord :=
  { ISO_TIME := .null, LAT := .num 3, LON := .null,
    STORM_SPEED := .null, STORM_DIR := .null }

def postFailSecond : CycRecord → Except PyErr Nat := fun r =>
  match r.LAT with
  | .num n => if n == 2 then .error .connectionError else .ok 200
  | _ => .ok 200

/-- A response counts as a fetch failure when the transport raised or the
status is not 200. -/
def isFailureResp : Except PyErr HttpResp → Bool
  | .error _ => true
  | .ok r => r.status != 200

/-- An HTTP 500 response. -/
def resp500 : Except PyErr HttpResp := .ok { status := 500, jsonBody := .ok .null }

/-- A feature is malformed in one of the ways claim C10 lists: its
`properties` subscript fails, its `geometry` subscript fails, or its
coordinates value is an array of fewer than three elements. -/
def malformedFeature (f : Json) : Bool :=
  !(exceptOk (pySubscript f "properties")) ||
  (match pySubscript f "geometry" with
   | .error _ => true
   | .ok g =>
     match pySubscript g "coordinates" with
     | .error _ => false
     | .ok (.arr xs) => decide (xs.length < 3)
     | .ok _ => false)

/-- A feature whose `properties` key is missing. -/
def badFeature : Json :=
  .obj [("geometry", .obj [("coordinates", .arr [.num 1, .num 2, .num 3])])]

/-- The record `exTsunami` normalizes to. -/
def exTsunamiRec : EqRecord := { exAbsentRec with tsunami_alert := .num 1 }

example : splitCS "a, b".toList = ["a".toList, "b".toList] := rfl

example : splitCS "10km NW of Springfield, CA".toList
    = ["10km NW of Springfield".toList, "CA".toList] := rfl

example : splitCS "Pacific Ocean".toList = ["Pacific Ocean".toList] := rfl

example : hasCS "Pacific Ocean".toList = false := rfl

example : hasCS "a, b".toList = true := rfl

example : normalizeFeature exAbsent = .ok exAbsentRec := rfl

example : Except.map EqRecord.tsunami_alert (normalizeFeature exTsunami)
    = .ok (.num 1) := rfl

theorem bind_eq_ok {α β : Type} (x : Except PyErr α) (f : α → Except PyErr β)
    (b : β) : x >>= f = .ok b ↔ ∃ a, x = .ok a ∧ f a = .ok b := by
  cases x <;> simp [Bind.bind, Except.bind]

theorem exceptOk_iff {α : Type} (x : Except PyErr α) :
    exceptOk x = true ↔ ∃ a, x = .ok a := by
  cases x <;> simp [exceptOk]

theorem bind_error {α β : Type} (e : PyErr) (f : α → Except PyErr β) :
    (Except.error e : Except PyErr α) >>= f = .error e := rfl

theorem bind_ok_apply {α β : Type} (a : α) (f : α → Except PyErr β) :
    (Except.ok a : Except PyErr α) >>= f = f a := rfl

theorem splitCS_ne_nil : ∀ l, splitCS l ≠ []
  | [] => by simp [splitCS]
  | [c] => by simp [splitCS]
  | c :: d :: t => by
    simp only [splitCS]
    cases hcd : (c == ',' && d == ' ') with
    | true => simp
    | false =>
      simp only [Bool.false_eq_true, if_false]
      cases hs : splitCS (d :: t) <;> simp

theorem splitCS_of_hasCS_false : ∀ l, hasCS l = false → splitCS l = [l]
  | [], _ => by simp [splitCS]
  | [c], _ => by simp [splitCS]
  | c :: d :: t, h => by
    simp only [hasCS, Bool.or_eq_false_iff] at h
    have ih := splitCS_of_hasCS_false (d :: t) h.2
    simp [splitCS, h.1, ih]

theorem hasCS_decomp (pre suf : List Char) :
    hasCS (pre ++ (commaSpace ++ suf)) = true := by
  induction pre with
  | nil => simp [commaSpace, hasCS]
  | cons x pre ih =>
    cases pre with
    | nil => simp_all [commaSpace, hasCS]
    | cons y pre2 => simp_all [commaSpace, hasCS]

theorem two_le_splitCS_length : ∀ l, hasCS l = true → 2 ≤ (splitCS l).length
  | [], h => by simp [hasCS] at h
  | [c], h => by simp [hasCS] at h
  | c :: d :: t, h => by
    cases hcd : (c == ',' && d == ' ') with
    | true =>
      simp only [splitCS, hcd, if_true]
      have hne := splitCS_ne_nil t
      cases hs : splitCS t <;> simp_all
    | false =>
      simp only [hasCS, hcd, Bool.false_or] at h
      have ih := two_le_splitCS_length (d :: t) h
      simp only [splitCS, hcd, Bool.false_eq_true, if_false]
      cases hs : splitCS (d :: t) with
      | nil => exact absurd hs (splitCS_ne_nil _)
      | cons p ps =>
        rw [hs] at ih
        simp at ih ⊢
        omega

theorem getLastD_irrel {α : Type} : ∀ (l : List α), l ≠ [] → ∀ a b : α,
    l.getLastD a = l.getLastD b
  | [x], _, a, b => rfl
  | x :: y :: t, _, a, b => by
    simp only [List.getLastD_cons]

theorem getLastD_splitCS : ∀ (pre suf : List Char), hasCS suf = false →
    (splitCS (pre ++ (commaSpace ++ suf))).getLastD [] = suf
  | [], suf, hsuf => by
    have hb := splitCS_of_hasCS_false suf hsuf
    simp [commaSpace, splitCS, hb]
  | [c], suf, hsuf => by
    have hb := splitCS_of_hasCS_false suf hsuf
    simp [commaSpace, splitCS, hb]
  | c :: d :: pre2, suf, hsuf => by
    cases hcd : (c == ',' && d == ' ') with
    | true =>
      have ihp := getLastD_splitCS pre2 suf hsuf
      simp only [List.cons_append, splitCS, hcd, if_true]
      rw [List.getLastD_cons]
      exact ihp
    | false =>
      have ihp := getLastD_splitCS (d :: pre2) suf hsuf
      have h2 := two_le_splitCS_length (d :: (pre2 ++ (commaSpace ++ suf)))
        (by simpa using hasCS_decomp (d :: pre2) suf)
      simp only [List.cons_append] at ihp
      simp only [List.cons_append, splitCS, hcd, Bool.false_eq_true, if_false]
      cases hs : splitCS (d :: (pre2 ++ (commaSpace ++ suf))) with
      | nil => exact absurd hs (splitCS_ne_nil _)
      | cons p ps =>
        rw [hs] at ihp h2
        have hps : ps ≠ [] := by
          cases ps
          · simp at h2
          · simp
        rw [List.getLastD_cons] at ihp
        simp only [List.getLastD_cons]
        rw [getLastD_irrel ps hps (c :: p) p]
        exact ihp
termination_by pre _ _ => pre.length

theorem regionOf_str (s : String) :
    regionOf (.str s) = .ok (.str (String.mk (regionChars s.toList))) := by
  have hmk : String.mk s.toList = s := by cases s; rfl
  simp only [regionOf, pyContainsCS, regionChars, Bind.bind, Except.bind]
  cases h : hasCS s.toList with
  | true =>
    simp only [if_true]
    rw [List.getLastD_eq_getLast?]
    cases hq : (splitCS s.toList).getLast? with
    | none =>
      exact absurd (List.getLast?_eq_none_iff.mp hq) (splitCS_ne_nil _)
    | some part => rfl
  | false =>
    simp [hmk]

/-- C5: for every place string, the derived region is the whole place when
it holds no `", "` separator, and the substring after the final `", "`
separator otherwise (characterized as the separator-free suffix that some
prefix plus `", "` completes to the place). -/
theorem c5_region_derivation (place : List Char) :
    (hasCS place = false → regionChars place = place) ∧
    (∀ pre suf : List Char, place = pre ++ (commaSpace ++ suf) →
      hasCS suf = false → regionChars place = suf) := by
  constructor
  · intro h
    simp [regionChars, h]
  · intro pre suf hdecomp hsuf
    subst hdecomp
    have hc := hasCS_decomp pre suf
    simp only [regionChars, hc, if_true]
    exact getLastD_splitCS pre suf hsuf

/-- Witness for C5 at the spec's two examples. -/
theorem c5_region_derivation_witness :
    regionChars ("10km NW of Springfield, CA".toList) = "CA".toList ∧
    regionChars ("Pacific Ocean".toList) = "Pacific Ocean".toList :=
  ⟨(c5_region_derivation _).2 ("10km NW of Springfield".toList) ("CA".toList)
      rfl rfl,
   (c5_region_derivation _).1 rfl⟩

theorem postedRecords_map (post : CycRecord → Except PyErr Nat) :
    ∀ l : List CycRecord,
      postedRecords
        (l.map (fun storm => DispatchEvent.posted storm (post storm))) = l
  | [] => rfl
  | r :: rs => by
    have ih := postedRecords_map post rs
    simp only [List.map_cons, postedRecords, List.filterMap_cons] at ih ⊢
    simp only [ih]

theorem postedRecords_send (data : List CycRecord)
    (post : CycRecord → Except PyErr Nat) :
    postedRecords (send_data_to_model data post) = data := by
  cases data with
  | nil => rfl
  | cons r rs =>
    simp only [send_data_to_model, List.isEmpty_cons, Bool.false_eq_true,
      if_false]
    exact postedRecords_map post (r :: rs)

/-- C7: for every cyclone snapshot and every behaviour of the downstream
sink, the dispatcher attempts every record of the snapshot exactly once,
in order — per-record failures never stop the loop. -/
theorem c7_dispatch_attempts_all (data : List CycRecord)
    (post : CycRecord → Except PyErr Nat) :
    postedRecords (send_data_to_model data post) = data :=
  postedRecords_send data post

/-- Witness for C7 on a one-record snapshot whose send fails. -/
theorem c7_dispatch_attempts_all_witness :
    postedRecords (send_data_to_model [dummyCyc]
      (fun _ => .error .connectionError)) = [dummyCyc] :=
  c7_dispatch_attempts_all [dummyCyc] (fun _ => .error .connectionError)

/-- C1 (amended): the trigger endpoint returns the fixed message object of
`main.py` line 162 — with no attempted/failed counts — it never raises on
partial failure, and it still attempts every record. -/
theorem c1_trigger_fixed_message (data : List CycRecord)
    (post : CycRecord → Except PyErr Nat) :
    (trigger_model_send data post).2
        = Json.obj [("message", Json.str "Cyclone data sent to model.")] ∧
    postedRecords (trigger_model_send data post).1 = data :=
  ⟨rfl, postedRecords_send data post⟩

/-- Witness for C1's amended theorem. -/
theorem c1_trigger_fixed_message_witness :
    (trigger_model_send [dummyCyc] (fun _ => .ok 200)).2
        = Json.obj [("message", Json.str "Cyclone data sent to model.")] ∧
    postedRecords (trigger_model_send [dummyCyc] (fun _ => .ok 200)).1
        = [dummyCyc] :=
  c1_trigger_fixed_message [dummyCyc] (fun _ => .ok 200)

/-- C1 counterexample: on a 3-record snapshot whose 2nd send fails, the
trigger response carries no `attempted` and no `failed` field (it is the
fixed message object), although all 3 records are attempted. -/
theorem c1_counterexample :
    postFailSecond cycB = .error .connectionError ∧
    jLookup (trigger_model_send [cycA, cycB, cycC] postFailSecond).2
        "attempted" = none ∧
    jLookup (trigger_model_send [cycA, cycB, cycC] postFailSecond).2
        "failed" = none ∧
    postedRecords (trigger_model_send [cycA, cycB, cycC] postFailSecond).1
        = [cycA, cycB, cycC] :=
  ⟨rfl, rfl, rfl, rfl⟩

/-- C6: on any fetch failure (transport error or non-200 status), both
fetch jobs leave their snapshot variable exactly unchanged. -/
theorem c6_failure_retains_snapshot (resp : Except PyErr HttpResp)
    (eqOld : List EqRecord) (cycOld : List CycRecord)
    (h : isFailureResp resp = true) :
    fetch_earthquake_data resp eqOld = eqOld ∧
    fetch_cyclone_data resp cycOld = cycOld := by
  cases resp with
  | error e => exact ⟨rfl, rfl⟩
  | ok r =>
    simp only [isFailureResp, bne_iff_ne, ne_eq] at h
    simp [fetch_earthquake_data, fetch_cyclone_data, h]

/-- Witness for C6 at an HTTP 500 response and non-empty snapshots. -/
theorem c6_failure_retains_snapshot_witness :
    fetch_earthquake_data resp500 [exAbsentRec] = [exAbsentRec] ∧
    fetch_cyclone_data resp500 [dummyCyc] = [dummyCyc] :=
  c6_failure_retains_snapshot resp500 [exAbsentRec] [dummyCyc] rfl

/-- C9: a 200 response with zero features/storms installs the empty list
as the new snapshot (replacing the old one), while a failed fetch keeps the
old snapshot — the two outcomes are distinguishable. -/
theorem c9_empty_success_installs_empty (eqOld : List EqRecord)
    (cycOld : List CycRecord) (fsE fsC : List (String × Json)) (e : PyErr)
    (hE : fsE.lookup "features" = some (.arr []))
    (hC : fsC.lookup "activeStorms" = some (.arr [])) :
    fetch_earthquake_data (.ok ⟨200, .ok (.obj fsE)⟩) eqOld = [] ∧
    fetch_cyclone_data (.ok ⟨200, .ok (.obj fsC)⟩) cycOld = [] ∧
    fetch_earthquake_data (.error e) eqOld = eqOld ∧
    fetch_cyclone_data (.error e) cycOld = cycOld := by
  refine ⟨?_, ?_, rfl, rfl⟩
  · simp [fetch_earthquake_data, extract_earthquakes, pySubscript, hE, pyIter,
      Bind.bind, Except.bind, List.mapM, List.mapM.loop, Pure.pure, Except.pure]
  · simp [fetch_cyclone_data, extract_cyclones, pyGetD, hC, pyIter,
      Bind.bind, Except.bind, List.mapM, List.mapM.loop, Pure.pure, Except.pure]

/-- Witness for C9 at concrete empty-feature/empty-storm bodies. -/
theorem c9_empty_success_installs_empty_witness :
    fetch_earthquake_data (.ok ⟨200, .ok (.obj [("features", .arr [])])⟩)
        [exAbsentRec] = [] ∧
    fetch_cyclone_data (.ok ⟨200, .ok (.obj [("activeStorms", .arr [])])⟩)
        [dummyCyc] = [] ∧
    fetch_earthquake_data (.error .connectionError) [exAbsentRec] = [exAbsentRec] ∧
    fetch_cyclone_data (.error .connectionError) [dummyCyc] = [dummyCyc] :=
  c9_empty_success_installs_empty [exAbsentRec] [dummyCyc]
    [("features", Json.arr [])] [("activeStorms", Json.arr [])]
    .connectionError rfl rfl

/-- C3 counterexample: each of the three outbound calls is issued with
`timeout = none` (no bounded timeout), refuting the claim that every
outbound call carries a finite timeout. -/
theorem c3_counterexample :
    (earthquake_request "2026-10-12" "2026-10-12").timeout = none ∧
    cyclone_request.timeout = none ∧
    (model_request dummyCyc).timeout = none :=
  ⟨rfl, rfl, rfl⟩

/-- C3 (amended): every outbound call of the program is issued without any
timeout — `requests` then waits indefinitely on a stalled endpoint. -/
theorem c3_no_timeout (d1 d2 : String) (storm : CycRecord) :
    (earthquake_request d1 d2).timeout = none ∧
    cyclone_request.timeout = none ∧
    (model_request storm).timeout = none :=
  ⟨rfl, rfl, rfl⟩

/-- Witness for C3's amended theorem. -/
theorem c3_no_timeout_witness :
    (earthquake_request "2026-10-12" "2026-10-13").timeout = none ∧
    cyclone_request.timeout = none ∧
    (model_request dummyCyc).timeout = none :=
  c3_no_timeout "2026-10-12" "2026-10-13" dummyCyc

/-- C8 counterexample: the seismic request carries the query parameter key
`format` (value `geojson`), which is not among the parameters the claim
enumerates as the exact set, so the request's parameters are not exactly
the claimed ones. -/
theorem c8_counterexample :
    ((usgs_params "2026-10-12" "2026-10-12").map Prod.fst).contains "format"
        = true ∧
    ((specSeismicParams "2026-10-12" "2026-10-12").map Prod.fst).contains
        "format" = false :=
  ⟨rfl, rfl⟩

/-- C8 (amended): the seismic request is issued with exactly the claimed
parameters plus a leading `format = "geojson"` entry (same day as start and
end date, minimum magnitude 3.0, ascending time order, cap 50, event-type
filter `earthquake`), and the cyclone request carries no parameters. -/
theorem c8_request_params (d1 d2 : String) :
    earthquake_request d1 d2 =
      { method := "GET", url := USGS_URL,
        params := ("format", Json.str "geojson") :: specSeismicParams d1 d2,
        body := none, timeout := none } ∧
    cyclone_request.params = [] :=
  ⟨rfl, rfl⟩

/-- Witness for C8's amended theorem. -/
theorem c8_request_params_witness :
    earthquake_request "2026-10-12" "2026-10-12" =
      { method := "GET", url := USGS_URL,
        params := ("format", Json.str "geojson")
          :: specSeismicParams "2026-10-12" "2026-10-12",
        body := none, timeout := none } ∧
    cyclone_request.params = [] :=
  c8_request_params "2026-10-12" "2026-10-12"

theorem mapM_not_ok {α β : Type} (g : α → Except PyErr β) :
    ∀ (l : List α) (x : α), x ∈ l → exceptOk (g x) = false →
      exceptOk (l.mapM g) = false
  | [], x, hx, _ => absurd hx (List.not_mem_nil x)
  | a :: l, x, hx, hgx => by
    rw [List.mapM_cons]
    cases ha : g a with
    | error e => simp [Bind.bind, Except.bind, exceptOk]
    | ok b =>
      rcases List.mem_cons.mp hx with hxa | hxl
      · subst hxa
        rw [ha] at hgx
        simp [exceptOk] at hgx
      · have ih := mapM_not_ok g l x hxl hgx
        cases hm : l.mapM g with
        | error e => simp [Bind.bind, Except.bind, exceptOk]
        | ok bs =>
          rw [hm] at ih
          simp [exceptOk] at ih

theorem normalizeFeature_ok_inv (feature : Json) (r : EqRecord)
    (h : normalizeFeature feature = .ok r) :
    ∃ props geo coords, pySubscript feature "properties" = .ok props ∧
      pySubscript feature "geometry" = .ok geo ∧
      pySubscript geo "coordinates" = .ok coords ∧
      exceptOk (pyIndex coords 1) = true ∧
      exceptOk (pyIndex coords 0) = true ∧
      exceptOk (pyIndex coords 2) = true := by
  simp only [normalizeFeature, bind_eq_ok] at h
  obtain ⟨props, hp, geo, hgeo, coords, hcoords, place, hplace, region, hreg,
    idv, hid, timev, htime, updv, hupd, magv, hmag, magtv, hmagt,
    magev, hmage, latv, hlat, lonv, hlon, depv, hdep, depev, hdepe,
    nstv, hnst, rmsv, hrms, gapv, hgap, dminv, hdmin, strv, hstr,
    dipv, hdip, rakev, hrake, tsuv, htsu, alv, hal, tyv, hty,
    stv, hst, urlv, hurl, hfin⟩ := h
  exact ⟨props, geo, coords, hp, hgeo, hcoords,
    by rw [hlat]; rfl, by rw [hlon]; rfl, by rw [hdep]; rfl⟩

theorem malformed_not_ok (f : Json) (hm : malformedFeature f = true) :
    exceptOk (normalizeFeature f) = false := by
  cases hres : normalizeFeature f with
  | error e => rfl
  | ok r =>
    exfalso
    obtain ⟨props, geo, coords, hp, hgeo, hcoords, h1, h0, h2⟩ :=
      normalizeFeature_ok_inv f r hres
    simp only [malformedFeature, hp, hgeo, hcoords, exceptOk,
      Bool.not_true, Bool.false_or] at hm
    cases coords with
    | arr xs =>
      simp only [decide_eq_true_eq] at hm
      rw [exceptOk_iff] at h2
      obtain ⟨v, hv⟩ := h2
      simp only [pyIndex] at hv
      cases hx : xs[2]? with
      | none => rw [hx] at hv; exact Except.noConfusion hv
      | some w =>
        obtain ⟨hlt, -⟩ := List.getElem?_eq_some_iff.mp hx
        omega
    | null => exact Bool.noConfusion hm
    | bool b => exact Bool.noConfusion hm
    | num q => exact Bool.noConfusion hm
    | str s => exact Bool.noConfusion hm
    | obj fs2 => exact Bool.noConfusion hm

/-- C10: a 200 seismic response whose body lacks the `features` key, or
contains any feature malformed as listed, aborts the whole extraction: the
old snapshot is retained and no partial record list is published. -/
theorem c10_malformed_aborts (eqOld : List EqRecord)
    (fs : List (String × Json)) :
    (fs.lookup "features" = none →
      fetch_earthquake_data (.ok ⟨200, .ok (.obj fs)⟩) eqOld = eqOld) ∧
    (∀ (l : List Json) (f : Json), fs.lookup "features" = some (.arr l) →
      f ∈ l → malformedFeature f = true →
      fetch_earthquake_data (.ok ⟨200, .ok (.obj fs)⟩) eqOld = eqOld) := by
  constructor
  · intro hnone
    simp [fetch_earthquake_data, extract_earthquakes, pySubscript, hnone,
      Bind.bind, Except.bind]
  · intro l f hl hf hmal
    have hok := mapM_not_ok normalizeFeature l f hf (malformed_not_ok f hmal)
    simp only [fetch_earthquake_data, extract_earthquakes, pySubscript, hl,
      Bind.bind, Except.bind, pyIter]
    cases hm : l.mapM normalizeFeature with
    | error e => simp
    | ok recs =>
      rw [hm] at hok
      simp [exceptOk] at hok

/-- Witness for C10: a batch with a well-formed first feature and a
malformed second one is rejected wholesale; so is a body with no
`features` key. -/
theorem c10_malformed_aborts_witness :
    fetch_earthquake_data
      (.ok ⟨200, .ok (.obj [("features", Json.arr [exAbsent, badFeature])])⟩)
      [exAbsentRec] = [exAbsentRec] ∧
    fetch_earthquake_data (.ok ⟨200, .ok (.obj [("other", Json.null)])⟩)
      [exAbsentRec] = [exAbsentRec] :=
  ⟨(c10_malformed_aborts [exAbsentRec] _).2 [exAbsent, badFeature] badFeature
      rfl (List.mem_cons_of_mem exAbsent (List.mem_cons_self badFeature []))
      rfl,
   (c10_malformed_aborts [exAbsentRec] _).1 rfl⟩

/-- C2 counterexample: a feature whose `magType` is absent normalizes to a
null `mag_type`, not to the `"N/A"` sentinel — refuting the claim that
every absent provider field is mapped to `"N/A"`. -/
theorem c2_counterexample :
    Except.map EqRecord.mag_type (normalizeFeature exAbsent)
        = .ok Json.null ∧
    Json.null ≠ Json.str "N/A" :=
  ⟨rfl, fun h => Json.noConfusion h⟩

/-- C2 (amended): only the fields the source gives an explicit `"N/A"`
default (magnitude error, depth error, place/location and region, station
count, rms, gap, dmin, strike, dip, rake, alert level) normalize to
`"N/A"` when absent; id, time, updated, magnitude, magnitude type, event
type, status and url normalize to null when absent, and an absent tsunami
field yields the integer flag 0. -/
theorem c2_absent_fields (ff pf gf : List (String × Json)) (a b c : Json)
    (r : EqRecord)
    (hpf : ff.lookup "properties" = some (.obj pf))
    (hgeo : ff.lookup "geometry" = some (.obj gf))
    (hcoords : gf.lookup "coordinates" = some (.arr [a, b, c]))
    (hidN : ff.lookup "id" = none)
    (hplaceN : pf.lookup "place" = none)
    (htimeN : pf.lookup "time" = none)
    (hupdN : pf.lookup "updated" = none)
    (hmagN : pf.lookup "mag" = none)
    (hmagtN : pf.lookup "magType" = none)
    (hmageN : pf.lookup "magError" = none)
    (hdepeN : pf.lookup "depthError" = none)
    (hnstN : pf.lookup "nst" = none)
    (hrmsN : pf.lookup "rms" = none)
    (hgapN : pf.lookup "gap" = none)
    (hdminN : pf.lookup "dmin" = none)
    (hstrN : pf.lookup "strike" = none)
    (hdipN : pf.lookup "dip" = none)
    (hrakeN : pf.lookup "rake" = none)
    (htsuN : pf.lookup "tsunami" = none)
    (halN : pf.lookup "alert" = none)
    (htyN : pf.lookup "type" = none)
    (hstN : pf.lookup "status" = none)
    (hurlN : pf.lookup "url" = none)
    (hr : normalizeFeature (.obj ff) = .ok r) :
    r.magnitude_error = .str "N/A" ∧ r.depth_error = .str "N/A" ∧
    r.location = .str "N/A" ∧ r.region = .str "N/A" ∧
    r.seismic_stations = .str "N/A" ∧ r.rms = .str "N/A" ∧
    r.gap = .str "N/A" ∧ r.dmin = .str "N/A" ∧ r.strike = .str "N/A" ∧
    r.dip = .str "N/A" ∧ r.rake = .str "N/A" ∧
    r.tsunami_warning = .str "N/A" ∧
    r.id = .null ∧ r.time = .null ∧ r.updated = .null ∧
    r.magnitude = .null ∧ r.mag_type = .null ∧ r.event_type = .null ∧
    r.status = .null ∧ r.url = .null ∧ r.tsunami_alert = .num 0 := by
  simp only [normalizeFeature, bind_eq_ok] at hr
  obtain ⟨props, hp, geo1, hg1, coords, hc1, place, hplace1, region, hreg1,
    idv, hid1, timev, htime1, updv, hupd1, magv, hmag1, magtv, hmagt1,
    magev, hmage1, latv, hlat1, lonv, hlon1, depv, hdep1, depev, hdepe1,
    nstv, hnst1, rmsv, hrms1, gapv, hgap1, dminv, hdmin1, strv, hstr1,
    dipv, hdip1, rakev, hrake1, tsuv, htsu1, alv, hal1, tyv, hty1,
    stv, hst1, urlv, hurl1, hfin⟩ := hr
  simp only [pySubscript, hpf] at hp
  injection hp with hp
  subst hp
  simp only [pySubscript, hgeo] at hg1
  injection hg1 with hg1
  subst hg1
  simp only [pySubscript, hcoords] at hc1
  injection hc1 with hc1
  subst hc1
  simp only [pyGetD, hplaceN, Option.getD_none] at hplace1
  injection hplace1 with hplace1
  subst hplace1
  have hNA : regionOf (Json.str "N/A") = .ok (.str "N/A") := rfl
  rw [hNA] at hreg1
  injection hreg1 with hreg1
  subst hreg1
  simp only [pyGet, hidN, Option.getD_none] at hid1
  injection hid1 with hid1
  subst hid1
  simp only [pyGet, htimeN, Option.getD_none] at htime1
  injection htime1 with htime1
  subst htime1
  simp only [pyGet, hupdN, Option.getD_none] at hupd1
  injection hupd1 with hupd1
  subst hupd1
  simp only [pyGet, hmagN, Option.getD_none] at hmag1
  injection hmag1 with hmag1
  subst hmag1
  simp only [pyGet, hmagtN, Option.getD_none] at hmagt1
  injection hmagt1 with hmagt1
  subst hmagt1
  simp only [pyGetD, hmageN, Option.getD_none] at hmage1
  injection hmage1 with hmage1
  subst hmage1
  simp only [pyIndex, List.getElem?_cons_succ, List.getElem?_cons_zero]
    at hlat1 hlon1 hdep1
  injection hlat1 with hlat1
  subst hlat1
  injection hlon1 with hlon1
  subst hlon1
  injection hdep1 with hdep1
  subst hdep1
  simp only [pyGetD, hdepeN, Option.getD_none] at hdepe1
  injection hdepe1 with hdepe1
  subst hdepe1
  simp only [pyGetD, hnstN, Option.getD_none] at hnst1
  injection hnst1 with hnst1
  subst hnst1
  simp only [pyGetD, hrmsN, Option.getD_none] at hrms1
  injection hrms1 with hrms1
  subst hrms1
  simp only [pyGetD, hgapN, Option.getD_none] at hgap1
  injection hgap1 with hgap1
  subst hgap1
  simp only [pyGetD, hdminN, Option.getD_none] at hdmin1
  injection hdmin1 with hdmin1
  subst hdmin1
  simp only [pyGetD, hstrN, Option.getD_none] at hstr1
  injection hstr1 with hstr1
  subst hstr1
  simp only [pyGetD, hdipN, Option.getD_none] at hdip1
  injection hdip1 with hdip1
  subst hdip1
  simp only [pyGetD, hrakeN, Option.getD_none] at hrake1
  injection hrake1 with hrake1
  subst hrake1
  simp only [pyGet, htsuN, Option.getD_none] at htsu1
  injection htsu1 with htsu1
  subst htsu1
  simp only [pyGetD, halN, Option.getD_none] at hal1
  injection hal1 with hal1
  subst hal1
  simp only [pyGet, htyN, Option.getD_none] at hty1
  injection hty1 with hty1
  subst hty1
  simp only [pyGet, hstN, Option.getD_none] at hst1
  injection hst1 with hst1
  subst hst1
  simp only [pyGet, hurlN, Option.getD_none] at hurl1
  injection hurl1 with hurl1
  subst hurl1
  simp only [Pure.pure, Except.pure] at hfin
  injection hfin with hfin
  subst hfin
  exact ⟨rfl, rfl, rfl, rfl, rfl, rfl, rfl, rfl, rfl, rfl, rfl, rfl, rfl,
    rfl, rfl, rfl, rfl, rfl, rfl, rfl, rfl⟩

/-- Witness for C2's amended theorem at a feature with an empty
`properties` dict. -/
theorem c2_absent_fields_witness :
    exAbsentRec.magnitude_error = .str "N/A" ∧
    exAbsentRec.depth_error = .str "N/A" ∧
    exAbsentRec.location = .str "N/A" ∧ exAbsentRec.region = .str "N/A" ∧
    exAbsentRec.seismic_stations = .str "N/A" ∧
    exAbsentRec.rms = .str "N/A" ∧ exAbsentRec.gap = .str "N/A" ∧
    exAbsentRec.dmin = .str "N/A" ∧ exAbsentRec.strike = .str "N/A" ∧
    exAbsentRec.dip = .str "N/A" ∧ exAbsentRec.rake = .str "N/A" ∧
    exAbsentRec.tsunami_warning = .str "N/A" ∧
    exAbsentRec.id = .null ∧ exAbsentRec.time = .null ∧
    exAbsentRec.updated = .null ∧ exAbsentRec.magnitude = .null ∧
    exAbsentRec.mag_type = .null ∧ exAbsentRec.event_type = .null ∧
    exAbsentRec.status = .null ∧ exAbsentRec.url = .null ∧
    exAbsentRec.tsunami_alert = .num 0 :=
  c2_absent_fields
    [("properties", Json.obj []),
     ("geometry", Json.obj [("coordinates",
        Json.arr [Json.num 10, Json.num 20, Json.num 30])])]
    [] [("coordinates", Json.arr [Json.num 10, Json.num 20, Json.num 30])]
    (Json.num 10) (Json.num 20) (Json.num 30) exAbsentRec
    rfl rfl rfl rfl rfl rfl rfl rfl rfl rfl rfl rfl rfl rfl rfl rfl rfl
    rfl rfl rfl rfl rfl rfl rfl

example : normalizeFeature exTsunami = .ok exTsunamiRec := rfl

/-- C4 counterexample: for a provider feature with the truthy tsunami
value 1, the normalized record's tsunami flag is the JSON number 1, not a
JSON boolean — refuting the claim that the flag is a boolean. -/
theorem c4_counterexample :
    Except.map EqRecord.tsunami_alert (normalizeFeature exTsunami)
        = .ok (Json.num 1) ∧
    isBoolJson (Json.num 1) = false :=
  ⟨rfl, rfl⟩

/-- C4 (amended): in every normalized seismic record the tsunami flag is
the integer 1 exactly when the provider's tsunami field is truthy and the
integer 0 otherwise (including when the field is absent) — an integer
derived from truthiness, not a boolean. -/
theorem c4_tsunami_flag (ff pf : List (String × Json)) (r : EqRecord)
    (hpf : ff.lookup "properties" = some (.obj pf))
    (hr : normalizeFeature (.obj ff) = .ok r) :
    r.tsunami_alert =
      if jTruthy ((pf.lookup "tsunami").getD .null) then Json.num 1
      else Json.num 0 := by
  simp only [normalizeFeature, bind_eq_ok] at hr
  obtain ⟨props, hp, geo, hgeo, coords, hcoords, place, hplace, region, hreg,
    idv, hid, timev, htime, updv, hupd, magv, hmag, magtv, hmagt,
    magev, hmage, latv, hlat, lonv, hlon, depv, hdep, depev, hdepe,
    nstv, hnst, rmsv, hrms, gapv, hgap, dminv, hdmin, strv, hstr,
    dipv, hdip, rakev, hrake, tsuv, htsu, alv, hal, tyv, hty,
    stv, hst, urlv, hurl, hfin⟩ := hr
  simp only [pySubscript, hpf] at hp
  injection hp with hp
  subst hp
  simp only [pyGet] at htsu
  injection htsu with htsu
  simp only [Pure.pure, Except.pure] at hfin
  injection hfin with hfin
  subst hfin
  rw [← htsu]

/-- Witness for C4's amended theorem at the truthy tsunami feature. -/
theorem c4_tsunami_flag_witness :
    exTsunamiRec.tsunami_alert =
      if jTruthy (([("tsunami", Json.num 1)].lookup "tsunami").getD .null)
      then Json.num 1 else Json.num 0 :=
  c4_tsunami_flag
    [("properties", Json.obj [("tsunami", Json.num 1)]),
     ("geometry", Json.obj [("coordinates",
        Json.arr [Json.num 10, Json.num 20, Json.num 30])])]
    [("tsunami", Json.num 1)] exTsunamiRec rfl rfl
